import Mathlib

/-!
Verification of the multi-source resource-aggregation pipeline of a
learning-plan application.  The definitions below mirror the TypeScript
source in `src/server/routes.ts`: query synthesis
(`generateComprehensiveSearchQueries`), per-source query optimization
(`optimizeQueriesForSource`), external fetching with fallback synthesis
(`fetchResourcesFromSource`, `generateFallbackResults`), per-day
aggregation with filtering/deduplication and persistence
(`fetchResourcesForPlan`), and the immediate-resources fast path
(`generateImmediateResources`).  The behaviour of the spawned external
lookup process is abstracted as an `ExtOutcome` oracle; everything else
is translated directly from the source.
-/

/-- Worker for `dedupFirstSeen`: `seen` is the set of strings already kept
(a JS `Set` in insertion order). -/
def dedupFirstSeenAux (seen : List String) : List String → List String
  | [] => []
  | x :: xs =>
    if seen.contains x then dedupFirstSeenAux seen xs
    else x :: dedupFirstSeenAux (x :: seen) xs

/-- JS `[...new Set(l)]`: deduplicate, keeping the first occurrence of each
string and preserving insertion order. -/
def dedupFirstSeen (l : List String) : List String :=
  dedupFirstSeenAux [] l

/-- One hexadecimal digit, uppercase, as used by JS `encodeURIComponent`. -/
def hexDigit (n : Nat) : Char :=
  if n < 10 then Char.ofNat (48 + n) else Char.ofNat (55 + n)

/-- UTF-8 bytes of one character (as `Nat`s below 256). -/
def utf8Bytes (c : Char) : List Nat :=
  if c.toNat < 128 then [c.toNat]
  else if c.toNat < 2048 then
    [192 + c.toNat / 64, 128 + c.toNat % 64]
  else if c.toNat < 65536 then
    [224 + c.toNat / 4096, 128 + (c.toNat / 64) % 64, 128 + c.toNat % 64]
  else
    [240 + c.toNat / 262144, 128 + (c.toNat / 4096) % 64,
      128 + (c.toNat / 64) % 64, 128 + c.toNat % 64]

/-- Characters that JS `encodeURIComponent` leaves unescaped:
`A-Z a-z 0-9 - _ . ! ~ * ' ( )`. -/
def isUnreservedURIChar (c : Char) : Bool :=
  c.isAlphanum || c = '-' || c = '_' || c = '.' || c = '!' || c = '~' ||
    c = '*' || c = Char.ofNat 39 || c = '(' || c = ')'

/-- Percent-encoding of a single character (UTF-8 bytes, `%XX` uppercase). -/
def percentEncodeChar (c : Char) : String :=
  String.join ((utf8Bytes c).map (fun b =>
    String.singleton '%' ++ String.singleton (hexDigit (b / 16)) ++
      String.singleton (hexDigit (b % 16))))

/-- JS `encodeURIComponent`. -/
def encodeURIComponent (s : String) : String :=
  String.join (s.data.map (fun c =>
    if isUnreservedURIChar c then String.singleton c else percentEncodeChar c))

/-- Metadata map attached to a candidate item.  `fallback` is the JS
truthiness of a `fallback` field (absent field modelled as `false`);
`mtype` is the `type` field; `msource` the `source` field. -/
structure Metadata where
  msource : Option String := none
  mtype : Option String := none
  note : Option String := none
  fallback : Bool := false
deriving DecidableEq

/-- A candidate resource item as produced by the external scripts or the
fallback synthesizer.  A missing `title`/`url`/`snippet` is modelled as the
empty string (both are falsy in the JS filters that inspect them). -/
structure Item where
  title : String
  url : String
  snippet : String := ""
  source : Option String := none
  metadata : Option Metadata := none
deriving DecidableEq

/-- One entry of the `fallbackContent` object in `generateFallbackResults`. -/
structure FallbackTemplate where
  title : String
  url : String
  snippet : String
deriving DecidableEq

/-- The `fallbackContent` lookup in `generateFallbackResults`
(`fallbackContent[source]`); `none` models the JS `undefined` obtained for a
source outside the four keys. -/
def fallbackContent (source query : String) : Option FallbackTemplate :=
  if source = "wikipedia" then
    some { title := query ++ " - Wikipedia Overview",
           url := "https://en.wikipedia.org/wiki/Special:Search/" ++
             encodeURIComponent query,
           snippet := "Search Wikipedia for comprehensive information about "
             ++ query ++ ". Click to explore detailed articles and references." }
  else if source = "youtube" then
    some { title := query ++ " - Educational Videos",
           url := "https://www.youtube.com/results?search_query=" ++
             encodeURIComponent (query ++ " tutorial"),
           snippet := "Find video tutorials and educational content about "
             ++ query ++
             ". Learn through visual explanations and practical demonstrations." }
  else if source = "reddit" then
    some { title := query ++ " - Community Discussions",
           url := "https://www.reddit.com/search/?q=" ++ encodeURIComponent query,
           snippet := "Join community discussions about " ++ query ++
             ". Get insights, ask questions, and learn from experienced practitioners." }
  else if source = "medium" then
    some { title := query ++ " - Technical Articles",
           url := "https://medium.com/search?q=" ++ encodeURIComponent query,
           snippet := "Read in-depth technical articles about " ++ query ++
             ". Explore expert insights and practical implementation guides." }
  else none

/-- JS `generateFallbackResults(source, query)`.  The JS function reads
`content.title` from the `fallbackContent` lookup; for an unknown source that
lookup is `undefined` and the access throws a `TypeError`, modelled here as
`none`.  For a known source it returns a single-item list whose metadata is
`{ source, type: 'fallback_search', note }` — note that no `fallback` field
is set. -/
def generateFallbackResults (source query : String) : Option (List Item) :=
  (fallbackContent source query).map (fun content =>
    [{ title := content.title,
       url := content.url,
       snippet := content.snippet,
       source := some source,
       metadata := some { msource := some source,
                          mtype := some "fallback_search",
                          note := some "Direct search link - click to find relevant content",
                          fallback := false } }])

/-- Observable behaviour of one spawned external-lookup process:
`spawnError` is the `error` event of `spawn`; `timeout` means the 15-second
timer fired first and the process was killed; `closed code outputBlank parsed`
is the `close` event with the exit code, whether trimmed stdout was empty, and
the result of `JSON.parse` followed by `.filter` (`none` models a parse throw
or a non-array value). -/
inductive ExtOutcome where
  | spawnError : ExtOutcome
  | timeout : ExtOutcome
  | closed (code : Int) (outputBlank : Bool) (parsed : Option (List Item)) : ExtOutcome
deriving DecidableEq

/-- The item filter applied inside `fetchResourcesFromSource` on the
successful-parse path: `r && r.title && r.title !== 'Module Import Error' &&
r.title !== 'Sorry peeps nothing to see here'`.  (A `null` array entry has no
truthy title either, so it is covered by the empty-title case.) -/
def codeValidItem (r : Item) : Bool :=
  r.title != "" && r.title != "Module Import Error" &&
    r.title != "Sorry peeps nothing to see here"

/-- Model of `fetchResourcesFromSource(source, query)` as a function of the external
outcome.  `none` models the crash of `generateFallbackResults` on an unknown
source (the promise then never resolves); every other path resolves. -/
def fetchResourcesFromSource (source query : String) (outcome : ExtOutcome) :
    Option (List Item) :=
  match outcome with
  | .spawnError => generateFallbackResults source query
  | .timeout => generateFallbackResults source query
  | .closed code outputBlank parsed =>
    if code = 0 && !outputBlank then
      match parsed with
      | none => generateFallbackResults source query
      | some result =>
        if (result.filter codeValidItem).length > 0 then
          some (result.filter codeValidItem)
        else generateFallbackResults source query
    else generateFallbackResults source query

/-- The four knowledge sources hard-coded in `fetchResourcesForPlan` and
`generateImmediateResources`. -/
inductive Src where
  | wikipedia : Src
  | youtube : Src
  | reddit : Src
  | medium : Src
deriving DecidableEq

/-- The string name of a known source. -/
def srcName : Src → String
  | .wikipedia => "wikipedia"
  | .youtube => "youtube"
  | .reddit => "reddit"
  | .medium => "medium"

/-- The `sources` array of `fetchResourcesForPlan`. -/
def knownSources : List Src := [.wikipedia, .youtube, .reddit, .medium]

/-- The fallback list for a known source (always defined). -/
def fallbackItems (s : Src) (query : String) : List Item :=
  (generateFallbackResults (srcName s) query).getD []

/-- The fetch result for a known source (always resolves; see
`fetchResourcesFromSource_srcName`). -/
def fetchKnown (s : Src) (query : String) (outcome : ExtOutcome) : List Item :=
  (fetchResourcesFromSource (srcName s) query outcome).getD []

/-- One day of a plan structure, as read by the pipeline: `day.day`,
`day.title`, `day.phase` (`none` models a missing/undefined field, `some ""`
an empty string — both falsy in JS), `day.microTopics` (`none` models a
missing field). -/
structure Day where
  day : Int
  title : String
  phase : Option String := none
  microTopics : Option (List String) := none
deriving DecidableEq

/-- The plan structure fields read by the pipeline: `planStructure.topic`
and `planStructure.days`. -/
structure PlanStructure where
  topic : String
  days : List Day := []
deriving DecidableEq

/-- The effective phase: `day.phase || 'beginner'` (missing, null or empty
string fall back to `'beginner'`). -/
def effectivePhase (day : Day) : String :=
  match day.phase with
  | none => "beginner"
  | some p => if p = "" then "beginner" else p

/-- The first push block of `generateComprehensiveSearchQueries`: primary
queries combining topic and day focus. -/
def primaryQueries (baseTopic dayTitle : String) : List String :=
  [baseTopic ++ " " ++ dayTitle,
   baseTopic ++ " " ++ dayTitle ++ " tutorial",
   baseTopic ++ " " ++ dayTitle ++ " guide"]

/-- The second push block: phase-specific queries
(`if/else if` chain on the phase; any other phase pushes nothing). -/
def phaseQueries (baseTopic dayTitle phase : String) : List String :=
  if phase = "beginner" then
    [baseTopic ++ " " ++ dayTitle ++ " fundamentals",
     baseTopic ++ " " ++ dayTitle ++ " basics",
     "learn " ++ baseTopic ++ " " ++ dayTitle]
  else if phase = "intermediate" then
    [baseTopic ++ " " ++ dayTitle ++ " practical",
     baseTopic ++ " " ++ dayTitle ++ " implementation",
     baseTopic ++ " " ++ dayTitle ++ " examples"]
  else if phase = "advanced" then
    [baseTopic ++ " " ++ dayTitle ++ " advanced",
     baseTopic ++ " " ++ dayTitle ++ " optimization",
     baseTopic ++ " " ++ dayTitle ++ " best practices"]
  else []

/-- The third push block: the `microTopics.forEach` loop, four queries per
micro-topic. -/
def microQueryBlock (baseTopic phase : String) (microTopics : List String) :
    List String :=
  microTopics.flatMap (fun microTopic =>
    [baseTopic ++ " " ++ microTopic,
     microTopic ++ " explained",
     microTopic ++ " tutorial",
     baseTopic ++ " " ++ microTopic ++ " " ++ phase])

/-- The fourth push block: technical documentation queries. -/
def docQueries (baseTopic : String) : List String :=
  [baseTopic ++ " documentation",
   baseTopic ++ " reference",
   baseTopic ++ " technical guide"]

/-- The sequence of `queries.push(...)` calls of
`generateComprehensiveSearchQueries`, in program order, before the final
dedup-and-truncate. -/
def emittedQueries (planStructure : PlanStructure) (day : Day) : List String :=
  primaryQueries planStructure.topic day.title ++
    phaseQueries planStructure.topic day.title (effectivePhase day) ++
    microQueryBlock planStructure.topic (effectivePhase day) (day.microTopics.getD []) ++
    docQueries planStructure.topic

/-- Model of `generateComprehensiveSearchQueries(planStructure, day)`: the pushed
queries, deduplicated (`[...new Set(queries)]`) and truncated
(`.slice(0, 12)`). -/
def generateComprehensiveSearchQueries (planStructure : PlanStructure) (day : Day) :
    List String :=
  (dedupFirstSeen (emittedQueries planStructure day)).take 12

/-- The queries pushed by the `switch (source)` statement of
`optimizeQueriesForSource` (empty for the `default`-less unknown case). -/
def sourceAdditions (source topic : String) : List String :=
  if source = "youtube" then
    [topic ++ " tutorial step by step", "how to learn " ++ topic,
     topic ++ " course", topic ++ " explained"]
  else if source = "medium" then
    [topic ++ " deep dive", topic ++ " comprehensive guide",
     "mastering " ++ topic, topic ++ " best practices"]
  else if source = "reddit" then
    ["learning " ++ topic, topic ++ " discussion",
     topic ++ " help", topic ++ " resources"]
  else if source = "wikipedia" then
    [topic ++ " overview", topic ++ " introduction",
     topic ++ " theory", topic ++ " principles"]
  else []

/-- Model of `optimizeQueriesForSource(source, baseQueries, topic)`: copy the base
list, push the source-specific queries, then `[...new Set(optimized)]`
and `.slice(0, 8)`. -/
def optimizeQueriesForSource (source : String) (baseQueries : List String)
    (topic : String) : List String :=
  (dedupFirstSeen (baseQueries ++ sourceAdditions source topic)).take 8

/-- JS `String.prototype.trim()`: strip leading and trailing whitespace. -/
def jsTrim (s : String) : String :=
  String.mk
    (((s.data.dropWhile Char.isWhitespace).reverse.dropWhile
      Char.isWhitespace).reverse)

/-- The early filter applied to each fetch result inside
`fetchResourcesForPlan`: `!r.metadata?.fallback && r.title !== 'Sorry peeps
nothing to see here' && r.url && r.url.trim() !== ''`. -/
def validResourceFilter (r : Item) : Bool :=
  (match r.metadata with
   | none => true
   | some m => !m.fallback) &&
  r.title != "Sorry peeps nothing to see here" &&
  r.url != "" && jsTrim r.url != ""

/-- The duplicate-removal step of `fetchResourcesForPlan`:
`allResources.filter((resource, index, self) => index === self.findIndex((r)
=> r.url === resource.url))`, i.e. keep the first occurrence of each url. -/
def dedupByUrlAux (seen : List String) : List Item → List Item
  | [] => []
  | x :: xs =>
    if seen.contains x.url then dedupByUrlAux seen xs
    else x :: dedupByUrlAux (x.url :: seen) xs

/-- Keep the first occurrence of each url (see `dedupByUrlAux`). -/
def dedupByUrl (l : List Item) : List Item :=
  dedupByUrlAux [] l

/-- The per-(day, source) body of `fetchResourcesForPlan` (the spec's Day
Aggregator): optimize the day's queries for the source, fetch each query,
discard empty results, filter, concatenate, dedup by url, truncate to 5.
The oracle gives each query's external outcome; `getD []` is justified by
`fetchResourcesFromSource_srcName` (fetching a known source always
resolves). -/
def aggregateDaySource (planStructure : PlanStructure) (day : Day) (s : Src)
    (oracle : String → ExtOutcome) : List Item :=
  let searchQueries := generateComprehensiveSearchQueries planStructure day
  let sourceQueries := optimizeQueriesForSource (srcName s) searchQueries
    planStructure.topic
  let allResources := sourceQueries.flatMap (fun query =>
    let resources := (fetchResourcesFromSource (srcName s) query (oracle query)).getD []
    if resources.length > 0 then resources.filter validResourceFilter else [])
  (dedupByUrl allResources).take 5

/-- The persisted unit (`storage.addResource` payload): planId, day number,
source name, item list. -/
structure ResourceRecord where
  planId : String
  day : Int
  source : String
  data : List Item
deriving DecidableEq

/-- Model of `fetchResourcesForPlan(planId, planStructure)`: for every day and every
one of the four sources, run the day aggregation and persist the result if
non-empty.  The returned list is the sequence of `storage.addResource`
calls.  The oracle maps (day number, source name, query) to the external
outcome of that fetch. -/
def fetchResourcesForPlan (planId : String) (planStructure : PlanStructure)
    (oracle : Int → String → String → ExtOutcome) : List ResourceRecord :=
  planStructure.days.flatMap (fun day =>
    knownSources.filterMap (fun s =>
      let uniqueResources := aggregateDaySource planStructure day s
        (oracle day.day (srcName s))
      if uniqueResources.length > 0 then
        some { planId := planId, day := day.day, source := srcName s,
               data := uniqueResources }
      else none))

/-- Model of `generateImmediateResources(topic, duration)`: for days 1 through
`Math.min(duration, 5)`, one query per source, returning the raw fetch
results grouped by day and source (nothing persisted, no filtering). -/
def generateImmediateResources (topic : String) (duration : Nat)
    (oracle : Src → String → ExtOutcome) :
    List (Nat × List (String × List Item)) :=
  (List.range' 1 (min duration 5)).map (fun day =>
    let searchQuery := topic ++ " day " ++ toString day ++ " fundamentals"
    (day, knownSources.map (fun s =>
      (srcName s,
        (fetchResourcesFromSource (srcName s) searchQuery (oracle s searchQuery)).getD []))))

/-- Item-level validation as the spec words it: title present and not a
known sentinel error string, and url present and non-empty.  Stated from
the spec for comparison with the code's `codeValidItem`, which does not
inspect the url. -/
def specItemValid (r : Item) : Bool :=
  r.title != "" && r.title != "Module Import Error" &&
    r.title != "Sorry peeps nothing to see here" && r.url != ""

/-- Whether an item's metadata marks it as a fallback, in the spec's sense:
the fallback synthesizer marks its items with `type: 'fallback_search'`
(spec 4.5); a truthy `fallback` field also counts.  Stated from the spec
for comparison with the persistence filter, which only checks the
`fallback` field. -/
def specFallbackMarked (r : Item) : Bool :=
  match r.metadata with
  | none => false
  | some m => m.fallback || m.mtype == some "fallback_search"

/-- Whether an external outcome is one of the failure modes that the fetcher
normalizes to a fallback: spawn failure, timeout, non-zero exit, empty
output, or parse failure. -/
def isFailureOutcome : ExtOutcome → Bool
  | .spawnError => true
  | .timeout => true
  | .closed code outputBlank parsed => !(code == 0) || outputBlank || parsed.isNone

/-- The day of the spec's end-to-end example (day 1 of the
"rust ownership" plan). -/
def c3Day : Day :=
  { day := 1, title := "Intro to ownership", phase := some "beginner",
    microTopics := some ["move semantics", "borrowing"] }

/-- The plan of the spec's end-to-end example. -/
def c3Plan : PlanStructure := { topic := "rust ownership", days := [c3Day] }

/-- A one-day demo plan used to evaluate the orchestrator concretely. -/
def demoDay : Day := { day := 1, title := "intro", phase := some "beginner" }

/-- The demo plan wrapping `demoDay`. -/
def demoPlan : PlanStructure := { topic := "rust", days := [demoDay] }

/-- An oracle under which every external lookup times out, i.e. every
Source Fetcher call fails. -/
def allTimeoutOracle : Int → String → String → ExtOutcome :=
  fun _ _ _ => ExtOutcome.timeout

/-- A parsed item with a title but an empty url: it passes the fetcher's
item filter (which never looks at the url) though it fails the spec's
stated validation. -/
def c5BadItem : Item := { title := "A", url := "" }

theorem generateFallbackResults_srcName (s : Src) (q : String) :
    generateFallbackResults (srcName s) q = some (fallbackItems s q) := by
  cases s <;> rfl

theorem fallbackItems_ne_nil (s : Src) (q : String) : fallbackItems s q ≠ [] := by
  cases s <;> simp [fallbackItems, generateFallbackResults, fallbackContent, srcName]

theorem opt_some_getD {α : Type} (x : Option α) (d : α) (h : x.isSome = true) :
    x = some (x.getD d) := by
  cases x with
  | none => cases h
  | some a => rfl

theorem fetchResourcesFromSource_srcName (s : Src) (q : String) (o : ExtOutcome) :
    fetchResourcesFromSource (srcName s) q o = some (fetchKnown s q o) := by
  have hs : (fetchResourcesFromSource (srcName s) q o).isSome = true := by
    cases o with
    | spawnError =>
      simp [fetchResourcesFromSource, generateFallbackResults_srcName]
    | timeout =>
      simp [fetchResourcesFromSource, generateFallbackResults_srcName]
    | closed code outputBlank parsed =>
      simp only [fetchResourcesFromSource]
      split
      · cases parsed with
        | none => simp [generateFallbackResults_srcName]
        | some result =>
          split
          · simp [generateFallbackResults_srcName]
          · split <;> simp [generateFallbackResults_srcName]
      · simp [generateFallbackResults_srcName]
  exact opt_some_getD _ [] hs

theorem dedupFirstSeenAux_mem (seen l : List String) (a : String)
    (h : a ∈ dedupFirstSeenAux seen l) : a ∈ l ∧ seen.contains a = false := by
  induction l generalizing seen with
  | nil => cases h
  | cons x xs ih =>
    simp only [dedupFirstSeenAux] at h
    split at h
    · obtain ⟨hmem, hcont⟩ := ih _ h
      exact ⟨List.mem_cons_of_mem _ hmem, hcont⟩
    · rename_i hcx
      rcases List.mem_cons.mp h with rfl | htail
      · exact ⟨List.mem_cons_self _ _, Bool.not_eq_true _ ▸ (Bool.eq_false_iff.mpr hcx)⟩
      · obtain ⟨hmem, hcont⟩ := ih _ htail
        simp only [List.contains_cons, Bool.or_eq_false_iff] at hcont
        exact ⟨List.mem_cons_of_mem _ hmem, hcont.2⟩

theorem dedupFirstSeenAux_nodup (seen l : List String) :
    (dedupFirstSeenAux seen l).Nodup := by
  induction l generalizing seen with
  | nil => simp [dedupFirstSeenAux]
  | cons x xs ih =>
    simp only [dedupFirstSeenAux]
    split
    · exact ih _
    · refine List.nodup_cons.mpr ⟨?_, ih _⟩
      intro hmem
      have hcont := (dedupFirstSeenAux_mem _ _ _ hmem).2
      simp [List.contains_cons] at hcont

theorem dedupFirstSeen_subset (l : List String) : dedupFirstSeen l ⊆ l :=
  fun _ ha => (dedupFirstSeenAux_mem [] l _ ha).1

theorem dedupFirstSeen_nodup (l : List String) : (dedupFirstSeen l).Nodup :=
  dedupFirstSeenAux_nodup [] l

theorem string_eq_empty_of_data_nil (s : String) (h : s.data = []) : s = "" := by
  cases s with
  | mk d => cases h; rfl

theorem append_ne_empty_right (a b : String) (hb : b ≠ "") : a ++ b ≠ "" := by
  intro h
  apply hb
  have hd := congrArg String.data h
  simp only [String.data_append] at hd
  rcases List.append_eq_nil.mp hd with ⟨-, hbnil⟩
  exact string_eq_empty_of_data_nil b hbnil

theorem append_ne_empty_left (a b : String) (ha : a ≠ "") : a ++ b ≠ "" := by
  intro h
  apply ha
  have hd := congrArg String.data h
  simp only [String.data_append] at hd
  rcases List.append_eq_nil.mp hd with ⟨hanil, -⟩
  exact string_eq_empty_of_data_nil a hanil

theorem topic_space_ne_empty (a b : String) : a ++ " " ++ b ≠ "" :=
  append_ne_empty_left _ b (append_ne_empty_right a " " (by decide))

theorem mem_primaryQueries_ne_empty (t d q : String)
    (h : q ∈ primaryQueries t d) : q ≠ "" := by
  simp only [primaryQueries, List.mem_cons, List.not_mem_nil, or_false] at h
  rcases h with h | h | h <;> subst h
  · exact topic_space_ne_empty t d
  · exact append_ne_empty_right _ " tutorial" (by decide)
  · exact append_ne_empty_right _ " guide" (by decide)

theorem mem_phaseQueries_ne_empty (t d p q : String)
    (h : q ∈ phaseQueries t d p) : q ≠ "" := by
  simp only [phaseQueries] at h
  split at h <;> [skip; split at h] <;> [skip; skip; split at h]
  all_goals simp only [List.mem_cons, List.not_mem_nil, or_false] at h
  · rcases h with h | h | h <;> subst h
    · exact append_ne_empty_right _ " fundamentals" (by decide)
    · exact append_ne_empty_right _ " basics" (by decide)
    · exact append_ne_empty_left "learn " _ (by decide)
  · rcases h with h | h | h <;> subst h
    · exact append_ne_empty_right _ " practical" (by decide)
    · exact append_ne_empty_right _ " implementation" (by decide)
    · exact append_ne_empty_right _ " examples" (by decide)
  · rcases h with h | h | h <;> subst h
    · exact append_ne_empty_right _ " advanced" (by decide)
    · exact append_ne_empty_right _ " optimization" (by decide)
    · exact append_ne_empty_right _ " best practices" (by decide)

theorem mem_microQueryBlock_ne_empty (t p q : String) (ms : List String)
    (h : q ∈ microQueryBlock t p ms) : q ≠ "" := by
  simp only [microQueryBlock, List.mem_flatMap, List.mem_cons, List.not_mem_nil,
    or_false] at h
  obtain ⟨m, -, h⟩ := h
  rcases h with h | h | h | h <;> subst h
  · exact topic_space_ne_empty t m
  · exact append_ne_empty_right _ " explained" (by decide)
  · exact append_ne_empty_right _ " tutorial" (by decide)
  · exact append_ne_empty_left _ p (append_ne_empty_right _ " " (by decide))

theorem mem_docQueries_ne_empty (t q : String) (h : q ∈ docQueries t) : q ≠ "" := by
  simp only [docQueries, List.mem_cons, List.not_mem_nil, or_false] at h
  rcases h with h | h | h <;> subst h
  · exact append_ne_empty_right _ " documentation" (by decide)
  · exact append_ne_empty_right _ " reference" (by decide)
  · exact append_ne_empty_right _ " technical guide" (by decide)

theorem mem_emittedQueries_ne_empty (plan : PlanStructure) (day : Day)
    (q : String) (h : q ∈ emittedQueries plan day) : q ≠ "" := by
  simp only [emittedQueries, List.mem_append] at h
  rcases h with ((h | h) | h) | h
  · exact mem_primaryQueries_ne_empty _ _ _ h
  · exact mem_phaseQueries_ne_empty _ _ _ _ h
  · exact mem_microQueryBlock_ne_empty _ _ _ _ h
  · exact mem_docQueries_ne_empty _ _ h

theorem fetchKnown_failure (s : Src) (q : String) (o : ExtOutcome)
    (h : isFailureOutcome o = true) : fetchKnown s q o = fallbackItems s q := by
  cases o with
  | spawnError => rfl
  | timeout => rfl
  | closed code outputBlank parsed =>
    simp only [fetchKnown, fetchResourcesFromSource]
    split
    · rename_i hcond
      cases parsed with
      | none => rw [generateFallbackResults_srcName]; rfl
      | some result =>
        exfalso
        simp only [isFailureOutcome, Option.isNone_some, Bool.or_false] at h
        simp only [Bool.and_eq_true, decide_eq_true_eq, Bool.not_eq_true'] at hcond
        rcases hcond with ⟨hc0, hb⟩
        subst hc0 hb
        simp at h
    · rw [generateFallbackResults_srcName]; rfl

theorem fetchKnown_ne_nil (s : Src) (q : String) (o : ExtOutcome) :
    fetchKnown s q o ≠ [] := by
  cases o with
  | spawnError => exact fallbackItems_ne_nil s q
  | timeout => exact fallbackItems_ne_nil s q
  | closed code outputBlank parsed =>
    simp only [fetchKnown, fetchResourcesFromSource]
    split
    · cases parsed with
      | none =>
        simp [generateFallbackResults_srcName]
        exact fallbackItems_ne_nil s q
      | some result =>
        split
        · exact fallbackItems_ne_nil s q
        · split
          · rename_i hl
            simpa using List.length_pos.mp hl
          · simp [generateFallbackResults_srcName]
            exact fallbackItems_ne_nil s q
    · simp [generateFallbackResults_srcName]
      exact fallbackItems_ne_nil s q

/-- C6: for every (topic, day) input, the Query Synthesizer output has
length at most 12, contains no duplicate strings, and equals the emitted
query sequence deduplicated by exact string equality preserving first-seen
order and then truncated to the first 12. -/
theorem querySynthesizer_dedup_cap (plan : PlanStructure) (day : Day) :
    generateComprehensiveSearchQueries plan day =
      (dedupFirstSeen (emittedQueries plan day)).take 12 ∧
    (generateComprehensiveSearchQueries plan day).length ≤ 12 ∧
    (generateComprehensiveSearchQueries plan day).Nodup := by
  refine ⟨rfl, List.length_take_le _ _, ?_⟩
  exact List.Nodup.sublist (List.take_sublist _ _) (dedupFirstSeen_nodup _)

/-- C7: no query in the Query Synthesizer output is the empty string, for
every input (in particular the synthesizer is total, and with empty titles
or micro-topics it still emits only non-empty queries). -/
theorem querySynthesizer_no_empty_query (plan : PlanStructure) (day : Day)
    (q : String) (h : q ∈ generateComprehensiveSearchQueries plan day) :
    q ≠ "" := by
  have h1 : q ∈ dedupFirstSeen (emittedQueries plan day) :=
    List.mem_of_mem_take h
  exact mem_emittedQueries_ne_empty plan day q (dedupFirstSeen_subset _ h1)

/-- C7 witness: a concrete query of a concrete plan (with an empty-title
day) is in the output and non-empty. -/
theorem querySynthesizer_no_empty_query_witness :
    ("rust " ∈ generateComprehensiveSearchQueries
      { topic := "rust", days := [] } { day := 1, title := "" }) ∧
    ("rust " : String) ≠ "" :=
  ⟨by decide, querySynthesizer_no_empty_query
    { topic := "rust", days := [] } { day := 1, title := "" } "rust " (by decide)⟩

/-- C8: the Source Query Optimizer output equals the base list followed by
the source's fixed additions, deduplicated preserving first-seen order and
capped at 8 (so length at most 8 and no duplicates); the four known sources
contribute exactly 4 additions; an unknown source identifier contributes no
additions, leaving the base list deduplicated and capped at 8. -/
theorem sourceQueryOptimizer_spec (source : String) (baseQueries : List String)
    (topic : String) :
    optimizeQueriesForSource source baseQueries topic =
      (dedupFirstSeen (baseQueries ++ sourceAdditions source topic)).take 8 ∧
    (optimizeQueriesForSource source baseQueries topic).length ≤ 8 ∧
    (optimizeQueriesForSource source baseQueries topic).Nodup ∧
    (source ∈ (["wikipedia", "youtube", "reddit", "medium"] : List String) →
      (sourceAdditions source topic).length = 4) ∧
    (source ∉ (["wikipedia", "youtube", "reddit", "medium"] : List String) →
      sourceAdditions source topic = [] ∧
      optimizeQueriesForSource source baseQueries topic =
        (dedupFirstSeen baseQueries).take 8) := by
  refine ⟨rfl, List.length_take_le _ _,
    List.Nodup.sublist (List.take_sublist _ _) (dedupFirstSeen_nodup _), ?_, ?_⟩
  · intro hmem
    simp only [List.mem_cons, List.not_mem_nil, or_false] at hmem
    rcases hmem with h | h | h | h <;> subst h <;> rfl
  · intro hmem
    simp only [List.mem_cons, List.not_mem_nil, or_false, not_or] at hmem
    obtain ⟨hw, hy, hr, hm⟩ := hmem
    have hadd : sourceAdditions source topic = [] := by
      simp [sourceAdditions, hw, hy, hr, hm]
    exact ⟨hadd, by simp [optimizeQueriesForSource, hadd]⟩

/-- C8 witness: for the unknown source identifier "gopher", there are no
additions and the output is the deduplicated, capped base list. -/
theorem sourceQueryOptimizer_spec_witness :
    sourceAdditions "gopher" "t" = [] ∧
    optimizeQueriesForSource "gopher" ["a"] "t" = (dedupFirstSeen ["a"]).take 8 :=
  (sourceQueryOptimizer_spec "gopher" ["a"] "t").2.2.2.2 (by decide)

/-- C10: a missing or empty phase is treated as 'beginner' (the synthesizer
output is identical to the explicit-'beginner' output, and the three
beginner variants are emitted); a non-empty phase outside
beginner/intermediate/advanced yields no phase-specific block, while the
per-micro-topic query still uses that phase string. -/
theorem phase_default_and_unknown (plan : PlanStructure) (d : Int)
    (title : String) (micros : Option (List String)) (p : String)
    (hp : p ≠ "") (hpb : p ≠ "beginner") (hpi : p ≠ "intermediate")
    (hpa : p ≠ "advanced") :
    generateComprehensiveSearchQueries plan
        { day := d, title := title, phase := none, microTopics := micros } =
      generateComprehensiveSearchQueries plan
        { day := d, title := title, phase := some "beginner", microTopics := micros } ∧
    generateComprehensiveSearchQueries plan
        { day := d, title := title, phase := some "", microTopics := micros } =
      generateComprehensiveSearchQueries plan
        { day := d, title := title, phase := some "beginner", microTopics := micros } ∧
    (plan.topic ++ " " ++ title ++ " fundamentals") ∈ emittedQueries plan
        { day := d, title := title, phase := none, microTopics := micros } ∧
    (plan.topic ++ " " ++ title ++ " basics") ∈ emittedQueries plan
        { day := d, title := title, phase := none, microTopics := micros } ∧
    ("learn " ++ plan.topic ++ " " ++ title) ∈ emittedQueries plan
        { day := d, title := title, phase := none, microTopics := micros } ∧
    emittedQueries plan
        { day := d, title := title, phase := some p, microTopics := micros } =
      primaryQueries plan.topic title ++
        microQueryBlock plan.topic p (micros.getD []) ++ docQueries plan.topic := by
  refine ⟨rfl, rfl, ?_, ?_, ?_, ?_⟩
  · simp [emittedQueries, effectivePhase, phaseQueries]
  · simp [emittedQueries, effectivePhase, phaseQueries]
  · simp [emittedQueries, effectivePhase, phaseQueries]
  · simp [emittedQueries, effectivePhase, hp, phaseQueries, hpb, hpi, hpa]

/-- C10 witness: the conclusion at a concrete plan, title, micro-topic list
and the unknown phase "expert". -/
theorem phase_default_and_unknown_witness :
    generateComprehensiveSearchQueries { topic := "t", days := [] }
        { day := 1, title := "x", phase := none, microTopics := some ["m"] } =
      generateComprehensiveSearchQueries { topic := "t", days := [] }
        { day := 1, title := "x", phase := some "beginner", microTopics := some ["m"] } ∧
    generateComprehensiveSearchQueries { topic := "t", days := [] }
        { day := 1, title := "x", phase := some "", microTopics := some ["m"] } =
      generateComprehensiveSearchQueries { topic := "t", days := [] }
        { day := 1, title := "x", phase := some "beginner", microTopics := some ["m"] } ∧
    ("t" ++ " " ++ "x" ++ " fundamentals") ∈ emittedQueries { topic := "t", days := [] }
        { day := 1, title := "x", phase := none, microTopics := some ["m"] } ∧
    ("t" ++ " " ++ "x" ++ " basics") ∈ emittedQueries { topic := "t", days := [] }
        { day := 1, title := "x", phase := none, microTopics := some ["m"] } ∧
    ("learn " ++ "t" ++ " " ++ "x") ∈ emittedQueries { topic := "t", days := [] }
        { day := 1, title := "x", phase := none, microTopics := some ["m"] } ∧
    emittedQueries { topic := "t", days := [] }
        { day := 1, title := "x", phase := some "expert", microTopics := some ["m"] } =
      primaryQueries "t" "x" ++ microQueryBlock "t" "expert" ["m"] ++ docQueries "t" :=
  phase_default_and_unknown { topic := "t", days := [] } 1 "x" (some ["m"])
    "expert" (by decide) (by decide) (by decide) (by decide)

/-- C9: the Immediate-Resources fast path issues lookups only for days 1
through min(duration, 5), one query "{topic} day {n} fundamentals" per day
to each of the four sources, and returns the fetched lists directly
(unfiltered, nothing persisted); for duration = 30 the queried days are
exactly 1 through 5. -/
theorem immediateResources_spec (topic : String) (duration : Nat)
    (oracle : Src → String → ExtOutcome) :
    generateImmediateResources topic duration oracle =
      (List.range' 1 (min duration 5)).map (fun day =>
        (day, knownSources.map (fun s =>
          (srcName s,
            fetchKnown s (topic ++ " day " ++ toString day ++ " fundamentals")
              (oracle s (topic ++ " day " ++ toString day ++ " fundamentals")))))) ∧
    (generateImmediateResources topic duration oracle).map Prod.fst =
      List.range' 1 (min duration 5) ∧
    (duration = 30 →
      (generateImmediateResources topic duration oracle).map Prod.fst =
        [1, 2, 3, 4, 5]) := by
  have h2 : (generateImmediateResources topic duration oracle).map Prod.fst =
      List.range' 1 (min duration 5) := by
    rw [generateImmediateResources, List.map_map]
    exact List.map_id _
  refine ⟨rfl, h2, fun h => ?_⟩
  subst h
  rw [h2]
  decide

/-- C9 witness: for duration 30 (every lookup timing out), the queried days
are exactly 1 through 5. -/
theorem immediateResources_spec_witness :
    (generateImmediateResources "rust" 30 (fun _ _ => ExtOutcome.timeout)).map
      Prod.fst = [1, 2, 3, 4, 5] :=
  (immediateResources_spec "rust" 30 (fun _ _ => ExtOutcome.timeout)).2.2 rfl

/-- C4 counterexample: for a source identifier outside the four known ones,
`generateFallbackResults` throws (its `fallbackContent` lookup is
undefined), so the fetcher does not resolve with a result list — modelled
as `none`. -/
theorem fetch_unknown_source_crashes :
    fetchResourcesFromSource "gopher" "q" ExtOutcome.timeout = none := rfl

/-- C4 (amended): for each of the four known sources and every query and
external outcome, the Source Fetcher resolves with a list, that list is
never empty, and on every failure outcome (spawn failure, timeout, non-zero
exit, empty output, parse failure) it is the synthesized fallback for that
(source, query). -/
theorem sourceFetcher_total_for_known_sources (s : Src) (q : String)
    (o : ExtOutcome) :
    fetchResourcesFromSource (srcName s) q o = some (fetchKnown s q o) ∧
    fetchKnown s q o ≠ [] ∧
    (isFailureOutcome o = true → fetchKnown s q o = fallbackItems s q) :=
  ⟨fetchResourcesFromSource_srcName s q o, fetchKnown_ne_nil s q o,
    fetchKnown_failure s q o⟩

/-- C4 witness: the wikipedia fetcher on a timeout resolves with the
non-empty synthesized fallback. -/
theorem sourceFetcher_total_witness :
    fetchResourcesFromSource "wikipedia" "x" ExtOutcome.timeout =
      some (fetchKnown Src.wikipedia "x" ExtOutcome.timeout) ∧
    fetchKnown Src.wikipedia "x" ExtOutcome.timeout =
      fallbackItems Src.wikipedia "x" ∧
    fetchKnown Src.wikipedia "x" ExtOutcome.timeout ≠ [] := by
  obtain ⟨h1, h2, h3⟩ :=
    sourceFetcher_total_for_known_sources Src.wikipedia "x" ExtOutcome.timeout
  exact ⟨h1, h3 rfl, h2⟩

/-- C5 counterexample: a parsed item with a title but an empty url is
returned by the fetcher even though it fails the spec's stated item-level
validation (which requires a non-empty url), and even though the spec-valid
subset of the parsed result is empty (so the spec prescribes the
fallback). -/
theorem fetcher_returns_invalid_url_item :
    fetchResourcesFromSource "wikipedia" "q"
        (ExtOutcome.closed 0 false (some [c5BadItem])) = some [c5BadItem] ∧
    specItemValid c5BadItem = false ∧
    [c5BadItem].filter specItemValid = [] :=
  ⟨rfl, rfl, rfl⟩

/-- C5 (amended): on a parseable in-deadline result, the fetcher returns
exactly the subset of items whose title is present and is not one of the
sentinel strings 'Module Import Error' / 'Sorry peeps nothing to see here'
(the url is not inspected at this stage), and returns the fallback for
(source, query) when that subset is empty. -/
theorem sourceFetcher_validation_title_only (s : Src) (q : String)
    (items : List Item) :
    fetchKnown s q (ExtOutcome.closed 0 false (some items)) =
      (if 0 < (items.filter (fun r =>
            r.title != "" && r.title != "Module Import Error" &&
              r.title != "Sorry peeps nothing to see here")).length then
        items.filter (fun r =>
          r.title != "" && r.title != "Module Import Error" &&
            r.title != "Sorry peeps nothing to see here")
      else fallbackItems s q) := by
  have hfun : (fun r : Item =>
      r.title != "" && r.title != "Module Import Error" &&
        r.title != "Sorry peeps nothing to see here") = codeValidItem := rfl
  rw [hfun]
  rw [show fetchKnown s q (ExtOutcome.closed 0 false (some items)) =
      (if 0 < (items.filter codeValidItem).length then
        some (items.filter codeValidItem)
      else generateFallbackResults (srcName s) q).getD [] from rfl]
  split <;> rename_i hcond
  · simp [hcond]
  · simp [hcond, generateFallbackResults_srcName]

/-- C1 (code bug): with every external lookup timing out, the orchestrator
persists, for the demo plan's single day, one record per source with 5
items each, and every persisted item is marked as a fallback in the spec's
sense (metadata type 'fallback_search') — the persistence filter only
checks a `fallback` metadata field that the fallback synthesizer never
sets, so fallback items survive it. -/
theorem persistedRecords_contain_fallback_marked :
    (fetchResourcesForPlan "p1" demoPlan allTimeoutOracle).map
      (fun record => (record.day, record.source, record.data.length,
        record.data.all specFallbackMarked)) =
      [(1, "wikipedia", 5, true), (1, "youtube", 5, true),
       (1, "reddit", 5, true), (1, "medium", 5, true)] := by
  rfl

/-- C2 (code bug): with every Source Fetcher call for the demo plan timing
out (so every call fails), a ResourceRecord is nevertheless persisted for
the (day 1, wikipedia) unit — the fallback items produced by the failed
calls pass the persistence filter. -/
theorem persists_record_despite_total_failure :
    ((fetchResourcesForPlan "p1" demoPlan allTimeoutOracle).filter
      (fun record => record.source == "wikipedia" && record.day == 1)).length
      = 1 := by
  rfl

/-- C3 counterexample: in the spec's end-to-end example the
wikipedia-optimized query list does not contain "rust ownership overview" —
the base list already has 12 entries, so the cap of 8 cuts every appended
wikipedia-specific query. -/
theorem wikipedia_optimized_lacks_overview_query :
    "rust ownership overview" ∉
      optimizeQueriesForSource "wikipedia"
        (generateComprehensiveSearchQueries c3Plan c3Day) "rust ownership" := by
  decide

/-- C3 (amended): in the end-to-end example the Query Synthesizer output
contains the four required queries, and the wikipedia-optimized list built
from it is the first 8 base queries, without "rust ownership overview". -/
theorem endToEnd_example_queries :
    "rust ownership Intro to ownership" ∈
      generateComprehensiveSearchQueries c3Plan c3Day ∧
    "rust ownership Intro to ownership fundamentals" ∈
      generateComprehensiveSearchQueries c3Plan c3Day ∧
    "rust ownership move semantics" ∈
      generateComprehensiveSearchQueries c3Plan c3Day ∧
    "move semantics explained" ∈
      generateComprehensiveSearchQueries c3Plan c3Day ∧
    optimizeQueriesForSource "wikipedia"
        (generateComprehensiveSearchQueries c3Plan c3Day) "rust ownership" =
      (generateComprehensiveSearchQueries c3Plan c3Day).take 8 ∧
    "rust ownership overview" ∉
      optimizeQueriesForSource "wikipedia"
        (generateComprehensiveSearchQueries c3Plan c3Day) "rust ownership" := by
  exact ⟨by decide, by decide, by decide, by decide, by rfl, by decide⟩
